import Mathlib

/-!
Verification of the items-api notes service.

The repository ships the Mongoose schema (`src/models/notes.js`), the
database bootstrap (`src/db/mongoose.js`) and the route test-suite.
The Express route handlers themselves are not among the provided source
files, so the handler pipelines are modelled from the spec (section 4.4)
and checked against the schema code and the behaviour pinned by the tests.
-/

namespace ItemsApi

/-- A stored note document, mirroring `notesSchema` in `src/models/notes.js`:
`text` (String), `completed` (Boolean, default false), `creator`
(ObjectId of the owning user), `createdAt` (Date).  Identifiers are the
store's 24-hex-character ObjectId strings; times are modelled as `Nat`. -/
structure Note where
  id : String
  text : String
  completed : Bool
  creator : String
  createdAt : Nat
deriving Repr, DecidableEq

/-- A JSON-ish value, enough to model the `completed` field of a PATCH
payload (`{ completed: 1234 }` vs `{ completed: true }` in the tests). -/
inductive JVal where
  | bool (b : Bool)
  | num (n : Int)
  | str (s : String)
  | null
deriving Repr, DecidableEq

/-- Response body: a single note, an array of notes, or an error object
`\x7b error: msg \x7d` (spec section 7: all error bodies are JSON objects with a
single `error` string field). -/
inductive Body where
  | note (n : Note)
  | notes (ns : List Note)
  | error (msg : String)
deriving Repr, DecidableEq

/-- Result of running one handler: HTTP status, response body, and the
note collection after the request. -/
structure HResult where
  status : Nat
  body : Body
  store : List Note
deriving Repr, DecidableEq

/-- Serialized form of an error body, as the tests observe it via
`res.text` (`JSON.stringify(\x7b error: msg \x7d)`). -/
def serializeError (msg : String) : String :=
  "\x7b\"error\":\"" ++ msg ++ "\"\x7d"

/-- Hexadecimal digit, the alphabet of Mongo ObjectId strings. -/
def isHexChar (c : Char) : Bool :=
  c.isDigit || (('a' ≤ c && c ≤ 'f') || ('A' ≤ c && c ≤ 'F'))

/-- Identifier validator (spec section 4.1): an identifier is valid iff it is
the store's canonical fixed-length hex string — a 24-character hex
ObjectId.  Modelled from the spec: the route handlers performing this
check are not among the provided sources. -/
def isValidId (s : String) : Bool :=
  s.length == 24 && s.data.all isHexChar

/-- JavaScript-style whitespace trim, modelling the `trim: true` setter of
`notesSchema.text` (removes leading and trailing whitespace). -/
def jsTrim (s : String) : String :=
  ⟨((s.data.dropWhile Char.isWhitespace).reverse.dropWhile
      Char.isWhitespace).reverse⟩

/-- Character-wise lowercasing, modelling the `lowercase: true` setter of
`notesSchema.text` (JavaScript `toLowerCase`). -/
def jsToLower (s : String) : String :=
  ⟨s.data.map Char.toLower⟩

/-- Normalization applied by the schema setters of `notesSchema.text`:
trim, then lowercase. -/
def normalizeText (s : String) : String :=
  jsToLower (jsTrim s)

/-- Validator of `notesSchema.text` (`required: true, minlength: 1,
maxlength: 50`), run after the setters, on the normalized value. -/
def textValid (s : String) : Bool :=
  1 ≤ (normalizeText s).length && (normalizeText s).length ≤ 50

/-- `findById` of the repository: first stored note with the given id. -/
def findById (store : List Note) (id : String) : Option Note :=
  store.find? (fun n => n.id == id)

/-- `listByOwner` of the repository: all notes whose creator is the given
owner, in insertion (storage) order. -/
def listByOwner (store : List Note) (owner : String) : List Note :=
  store.filter (fun n => n.creator == owner)

/-- Fixed error message for a malformed identifier (spec section 7:
`MalformedIdError` → 400; the exact string is not pinned by the tests). -/
def invalidIdMsg : String := "Invalid ID"

/-- Fixed error message for an ownership denial (spec section 4.2: a generic
client error, deliberately indistinguishable from a bad request; the
exact string is not pinned by the tests). -/
def ownershipMsg : String := "Bad Request"

/-- Error message for a well-formed id with no matching note, pinned by the
tests: `JSON.stringify(\x7b error: 'Note Not Found' \x7d)`. -/
def notFoundMsg : String := "Note Not Found"

/-- Error message for a non-boolean `completed` in a PATCH payload, pinned
by the tests. -/
def completedMsg : String := "Completed Must be Boolean"

/-- Payload of a POST /notes request.  The tests send a whole note object,
so the payload may carry a `creator` field of its own. -/
structure CreatePayload where
  text : Option String
  completed : Option Bool
  creator : Option String
deriving Repr, DecidableEq

/-- Modelled from the spec: the POST /notes handler (the Express route file
is not among the provided sources).  Spec section 4.4: validate payload
against the schema (400 on failure) → `create(principal.id, payload)` →
201 with the created note.  The repository stamps `creatorId =
principal.id` (client-supplied creator ignored) and fills schema
defaults.  Per `src/models/notes.js`, the `createdAt` default is
`Date.now()` **invoked at schema-definition time**, so every note
receives the module-load timestamp `loadTime`, not the request
time `now`. -/
def postNote (store : List Note) (principal : String)
    (payload : CreatePayload) (loadTime : Nat) (now : Nat)
    (newId : String) : HResult :=
  match payload.text with
  | none => ⟨400, .error "Text is Required", store⟩
  | some t =>
    if textValid t then
      let n : Note :=
        { id := newId
          text := normalizeText t
          completed := payload.completed.getD false
          creator := principal
          createdAt := loadTime }
      ⟨201, .note n, store ++ [n]⟩
    else ⟨400, .error "Text is Invalid", store⟩

/-- Modelled from the spec: the GET /notes handler.  Spec section 4.4:
`listByOwner(principal.id)` → 200 with the array (empty array when none,
never 404). -/
def getNotes (store : List Note) (principal : String) : HResult :=
  ⟨200, .notes (listByOwner store principal), store⟩

/-- Modelled from the spec: the GET /notes/:id handler.  Spec section 4.4:
validate id format (else 400) → `findById` (else 404 with "Note Not
Found") → ownership guard (else 400) → 200 with the note. -/
def getNote (store : List Note) (principal : String) (id : String) :
    HResult :=
  if isValidId id then
    match findById store id with
    | none => ⟨404, .error notFoundMsg, store⟩
    | some n =>
      if n.creator == principal then ⟨200, .note n, store⟩
      else ⟨400, .error ownershipMsg, store⟩
  else ⟨400, .error invalidIdMsg, store⟩

/-- Modelled from the spec: the DELETE /notes/:id handler.  Spec section
4.4: validate id format (else 400) → `findById` (else 404) → ownership
guard (else 400) → delete → 200. -/
def deleteNote (store : List Note) (principal : String) (id : String) :
    HResult :=
  if isValidId id then
    match findById store id with
    | none => ⟨404, .error notFoundMsg, store⟩
    | some n =>
      if n.creator == principal then
        ⟨200, .note n, store.filter (fun m => m.id != id)⟩
      else ⟨400, .error ownershipMsg, store⟩
  else ⟨400, .error invalidIdMsg, store⟩

/-- Modelled from the spec: the PATCH /notes/:id handler.  Spec section
4.4: validate id format (else 400) → `findById` (else 404 with "Note Not
Found") → ownership guard (else 400) → `completed` must be boolean if
present (else 400 with "Completed Must be Boolean") → update → 201 with
the updated note.  Only `completed` is mutable. -/
def patchNote (store : List Note) (principal : String) (id : String)
    (completed : Option JVal) : HResult :=
  if isValidId id then
    match findById store id with
    | none => ⟨404, .error notFoundMsg, store⟩
    | some n =>
      if n.creator == principal then
        match completed with
        | some (.bool b) =>
          let n' : Note := { n with completed := b }
          ⟨201, .note n',
            store.map (fun m => if m.id == id then { m with completed := b }
                                else m)⟩
        | some _ => ⟨400, .error completedMsg, store⟩
        | none => ⟨201, .note n, store⟩
      else ⟨400, .error ownershipMsg, store⟩
  else ⟨400, .error invalidIdMsg, store⟩

/-! ### Helper lemmas -/

/-- Character-wise lowercasing preserves string length. -/
theorem jsToLower_length (s : String) : (jsToLower s).length = s.length := by
  cases s with
  | mk l => exact List.length_map l Char.toLower

/-- A sample note, as built by the test-suite's `createNote` helper. -/
def sampleNote : Note :=
  ⟨"5e4983e0186afc3c3b684bbb", "note1", false, "u1", 0⟩

/-- A note whose text is the word "error", used to probe the literal
substring reading of the no-leak property. -/
def leakNote : Note :=
  ⟨"aaaaaaaaaaaaaaaaaaaaaaaa", "error", false, "u1", 0⟩

/-! ### Claim theorems -/

/-- C2: for every authenticated POST /notes request whose text passes
schema validation, the created note's creator equals the authenticated
principal's id — regardless of the `creator` field the payload supplies
(the payload is universally quantified, including its creator field). -/
theorem postNote_creator_is_principal (store : List Note)
    (principal : String) (payload : CreatePayload) (loadTime now : Nat)
    (newId t : String) (ht : payload.text = some t)
    (hv : textValid t = true) :
    ∃ n : Note,
      (postNote store principal payload loadTime now newId).status = 201 ∧
      (postNote store principal payload loadTime now newId).store
        = store ++ [n] ∧
      n.creator = principal := by
  refine ⟨{ id := newId, text := normalizeText t,
            completed := payload.completed.getD false,
            creator := principal, createdAt := loadTime }, ?_, ?_, rfl⟩ <;>
  · unfold postNote
    rw [ht]
    simp [hv]

/-- C2 witness: a payload carrying `creator = "evil"` still yields a note
whose creator is the acting principal `"u1"`. -/
theorem postNote_creator_witness :
    ∃ n : Note,
      (postNote [] "u1" ⟨some "note1", none, some "evil"⟩ 0 7
        "bbbbbbbbbbbbbbbbbbbbbbbb").status = 201 ∧
      (postNote [] "u1" ⟨some "note1", none, some "evil"⟩ 0 7
        "bbbbbbbbbbbbbbbbbbbbbbbb").store = [] ++ [n] ∧
      n.creator = "u1" :=
  postNote_creator_is_principal [] "u1" ⟨some "note1", none, some "evil"⟩
    0 7 "bbbbbbbbbbbbbbbbbbbbbbbb" "note1" rfl (by decide)

/-- C5: for every text whose trimmed form has length between 1 and 50,
`create` stores exactly the trimmed, lowercased form of the text. -/
theorem postNote_normalizes_text (store : List Note) (principal : String)
    (completed : Option Bool) (creator : Option String)
    (loadTime now : Nat) (newId t : String)
    (h1 : 1 ≤ (jsTrim t).length) (h2 : (jsTrim t).length ≤ 50) :
    ∃ n : Note,
      (postNote store principal ⟨some t, completed, creator⟩ loadTime now
        newId).store = store ++ [n] ∧
      n.text = jsToLower (jsTrim t) := by
  have hv : textValid t = true := by
    simp only [textValid, normalizeText, jsToLower_length,
      Bool.and_eq_true, decide_eq_true_eq]
    exact ⟨h1, h2⟩
  exact ⟨{ id := newId, text := normalizeText t,
           completed := completed.getD false,
           creator := principal, createdAt := loadTime },
    by simp [postNote, hv], rfl⟩

/-- C5 witness: the text `"  NoTe1  "` is stored as `"note1"`. -/
theorem postNote_normalizes_text_witness :
    ∃ n : Note,
      (postNote [] "u1" ⟨some "  NoTe1  ", none, none⟩ 0 7
        "bbbbbbbbbbbbbbbbbbbbbbbb").store = [] ++ [n] ∧
      n.text = jsToLower (jsTrim "  NoTe1  ") :=
  postNote_normalizes_text [] "u1" none none 0 7
    "bbbbbbbbbbbbbbbbbbbbbbbb" "  NoTe1  " (by decide) (by decide)

/-- C6: GET /notes returns status 200 with exactly the notes whose creator
equals the principal, in insertion order (the returned list is a sublist
of the store, hence order-preserving); an owner with no notes gets the
empty array, never an error or 404; the store is not modified. -/
theorem getNotes_lists_by_owner (store : List Note) (u : String) :
    (getNotes store u).status = 200 ∧
    (getNotes store u).body = .notes (listByOwner store u) ∧
    (∀ n : Note, n ∈ listByOwner store u ↔ n ∈ store ∧ n.creator = u) ∧
    (listByOwner store u).Sublist store ∧
    ((∀ n ∈ store, n.creator ≠ u) → listByOwner store u = []) ∧
    (getNotes store u).store = store := by
  refine ⟨rfl, rfl, ?_, List.filter_sublist store, ?_, rfl⟩
  · intro n
    simp [listByOwner, List.mem_filter]
  · intro h
    simp only [listByOwner, List.filter_eq_nil_iff, beq_iff_eq]
    exact h

/-- C6 witness: with one stored note owned by `"u1"`, `"u1"` gets exactly
that note and `"u2"` gets the empty array, both with status 200. -/
theorem getNotes_lists_by_owner_witness :
    (getNotes [sampleNote] "u1").status = 200 ∧
    (getNotes [sampleNote] "u1").body
      = .notes (listByOwner [sampleNote] "u1") ∧
    (getNotes [sampleNote] "u2").status = 200 ∧
    listByOwner [sampleNote] "u2" = [] := by
  have h1 := getNotes_lists_by_owner [sampleNote] "u1"
  have h2 := getNotes_lists_by_owner [sampleNote] "u2"
  exact ⟨h1.1, h1.2.1, h2.1, h2.2.2.2.2.1 (by decide)⟩

/-- C1 counterexample: a note whose text is the word `"error"` refutes the
literal claim.  A non-creator's GET /notes/:id yields status 400, yet the
serialized error body — a JSON object with an `error` field, as the spec
requires of every error body — contains the note's text `"error"` as a
substring. -/
theorem ownership_denial_contains_error_text :
    (getNote [leakNote] "u2" "aaaaaaaaaaaaaaaaaaaaaaaa").status = 400 ∧
    (getNote [leakNote] "u2" "aaaaaaaaaaaaaaaaaaaaaaaa").body
      = .error ownershipMsg ∧
    leakNote.text = "error" ∧
    leakNote.text.data <:+: (serializeError ownershipMsg).data := by
  refine ⟨rfl, rfl, rfl, ?_⟩
  decide

/-- C1 (amended): an ownership mismatch on GET/PATCH/DELETE /notes/:id
yields status 400 with the same fixed error body on every branch — the
response is a constant independent of the note, so nothing about the note
flows into it — and the store is untouched; in particular no string of
length ≥ 24 (such as the note's 24-hex id) can occur in the serialized
error body.  The note's text itself can coincide with a substring of the
constant error envelope (see the counterexample), which is the only
divergence from the literal claim. -/
theorem ownership_denial_no_leak (store : List Note) (p id : String)
    (n : Note) (hv : isValidId id = true)
    (hf : findById store id = some n) (ho : n.creator ≠ p) :
    getNote store p id = ⟨400, .error ownershipMsg, store⟩ ∧
    deleteNote store p id = ⟨400, .error ownershipMsg, store⟩ ∧
    (∀ c : Option JVal,
      patchNote store p id c = ⟨400, .error ownershipMsg, store⟩) ∧
    (∀ s : String, 24 ≤ s.length →
      ¬ (s.data <:+: (serializeError ownershipMsg).data)) := by
  have hbeq : (n.creator == p) = false := by
    simpa [beq_iff_eq] using ho
  refine ⟨?_, ?_, ?_, ?_⟩
  · unfold getNote
    rw [if_pos hv, hf]
    simp [hbeq]
  · unfold deleteNote
    rw [if_pos hv, hf]
    simp [hbeq]
  · intro c
    unfold patchNote
    rw [if_pos hv, hf]
    simp [hbeq]
  · intro s hs hinf
    have hlen : s.data.length ≤ (serializeError ownershipMsg).data.length :=
      hinf.length_le
    have h23 : (serializeError ownershipMsg).data.length = 23 := by decide
    have hsd : s.length = s.data.length := rfl
    omega

/-- C1 witness: the amended theorem applied to the sample note and a
non-creator principal `"u2"`. -/
theorem ownership_denial_no_leak_witness :
    getNote [sampleNote] "u2" "5e4983e0186afc3c3b684bbb"
      = ⟨400, .error ownershipMsg, [sampleNote]⟩ ∧
    deleteNote [sampleNote] "u2" "5e4983e0186afc3c3b684bbb"
      = ⟨400, .error ownershipMsg, [sampleNote]⟩ := by
  have h := ownership_denial_no_leak [sampleNote] "u2"
    "5e4983e0186afc3c3b684bbb" sampleNote (by decide) (by decide)
    (by decide)
  exact ⟨h.1, h.2.1⟩

/-- C3: for every identifier, GET/DELETE/PATCH /notes/:id distinguishes
malformed from absent: a malformed id yields the constant 400 response
with the store unchanged (never a 404); a well-formed id that matches no
note yields 404 with body `\x7b error: "Note Not Found" \x7d` and the store
unchanged. -/
theorem id_validation_distinguishes (store : List Note) (p id : String)
    (c : Option JVal) :
    (isValidId id = false →
      getNote store p id = ⟨400, .error invalidIdMsg, store⟩ ∧
      deleteNote store p id = ⟨400, .error invalidIdMsg, store⟩ ∧
      patchNote store p id c = ⟨400, .error invalidIdMsg, store⟩) ∧
    (isValidId id = true → findById store id = none →
      getNote store p id = ⟨404, .error notFoundMsg, store⟩ ∧
      deleteNote store p id = ⟨404, .error notFoundMsg, store⟩ ∧
      patchNote store p id c = ⟨404, .error notFoundMsg, store⟩) := by
  constructor
  · intro hbad
    refine ⟨?_, ?_, ?_⟩
    · unfold getNote
      simp [hbad]
    · unfold deleteNote
      simp [hbad]
    · unfold patchNote
      simp [hbad]
  · intro hok habs
    refine ⟨?_, ?_, ?_⟩
    · unfold getNote
      rw [if_pos hok, habs]
    · unfold deleteNote
      rw [if_pos hok, habs]
    · unfold patchNote
      rw [if_pos hok, habs]

/-- C3 witness: the malformed id `"1234"` yields 400 leaving the store
unchanged, and the well-formed absent id `"5e547e0d22e5ea5888ca32d2"`
yields 404 with the "Note Not Found" body. -/
theorem id_validation_distinguishes_witness :
    deleteNote [sampleNote] "u1" "1234"
      = ⟨400, .error invalidIdMsg, [sampleNote]⟩ ∧
    deleteNote [sampleNote] "u1" "5e547e0d22e5ea5888ca32d2"
      = ⟨404, .error notFoundMsg, [sampleNote]⟩ := by
  have h1 := id_validation_distinguishes [sampleNote] "u1" "1234" none
  have h2 := id_validation_distinguishes [sampleNote] "u1"
    "5e547e0d22e5ea5888ca32d2" none
  exact ⟨(h1.1 (by decide)).2.1, (h2.2 (by decide) (by decide)).2.1⟩

/-- C4: a PATCH on an existing note owned by the caller whose `completed`
field is present but not a boolean returns status 400 with body exactly
`\x7b error: "Completed Must be Boolean" \x7d` and leaves the store — hence
the stored note — unchanged. -/
theorem patch_nonbool_completed (store : List Note) (p id : String)
    (n : Note) (v : JVal) (hv : isValidId id = true)
    (hf : findById store id = some n) (ho : n.creator = p)
    (hb : ∀ b : Bool, v ≠ .bool b) :
    patchNote store p id (some v) = ⟨400, .error completedMsg, store⟩ := by
  have hbeq : (n.creator == p) = true := by
    simpa [beq_iff_eq] using ho
  unfold patchNote
  rw [if_pos hv, hf]
  simp only [hbeq, if_true]

/-- C4 witness: the test's payload `\x7b completed: 1234 \x7d` on the sample
note yields 400 with the exact error body, store unchanged. -/
theorem patch_nonbool_completed_witness :
    patchNote [sampleNote] "u1" "5e4983e0186afc3c3b684bbb"
      (some (.num 1234)) = ⟨400, .error completedMsg, [sampleNote]⟩ :=
  patch_nonbool_completed [sampleNote] "u1" "5e4983e0186afc3c3b684bbb"
    sampleNote (.num 1234) (by decide) (by decide) (by decide)
    (fun b h => by cases h)

/-- Updating `completed` on the note matched by `findById` is found again
by `findById`, with only `completed` changed. -/
theorem findById_map_completed (store : List Note) (id : String) (b : Bool)
    (n : Note) (h : findById store id = some n) :
    findById (store.map
        (fun m => if m.id == id then { m with completed := b } else m)) id
      = some { n with completed := b } := by
  induction store with
  | nil => simp [findById] at h
  | cons hd tl ih =>
    by_cases hid : hd.id = id
    · have hb : (hd.id == id) = true := by simpa [beq_iff_eq] using hid
      have hn : n = hd := by
        simp [findById, List.find?, hb] at h
        exact h.symm
      subst hn
      simp [findById, List.find?, hb, hid]
    · have hb : (hd.id == id) = false := by simpa [beq_iff_eq] using hid
      have h' : findById tl id = some n := by
        simpa [findById, List.find?, hb] using h
      have := ih h'
      simpa [findById, List.find?, hb] using this

/-- C7: no operation ever reassigns a note's creator (or its id, text or
createdAt): GET leaves the store untouched; every note in the store after
a PATCH keeps the id, text, creator and createdAt of a note that was
already stored (PATCH mutates only `completed`); DELETE only removes
notes (the surviving list is a sublist of unchanged notes); and POST only
appends, the new note's creator being the acting principal. -/
theorem creator_set_once (store : List Note) (p id newId : String)
    (payload : CreatePayload) (c : Option JVal) (loadTime now : Nat) :
    (getNote store p id).store = store ∧
    (∀ n' ∈ (patchNote store p id c).store, ∃ n ∈ store,
        n'.id = n.id ∧ n'.text = n.text ∧ n'.creator = n.creator ∧
        n'.createdAt = n.createdAt) ∧
    ((deleteNote store p id).store).Sublist store ∧
    (∀ n' ∈ (postNote store p payload loadTime now newId).store,
        n' ∈ store ∨ n'.creator = p) := by
  refine ⟨?_, ?_, ?_, ?_⟩
  · unfold getNote
    split
    · split
      · rfl
      · split <;> rfl
    · rfl
  · intro n' hn'
    unfold patchNote at hn'
    split at hn'
    · split at hn'
      · exact ⟨n', hn', rfl, rfl, rfl, rfl⟩
      · split at hn'
        · split at hn'
          · rcases List.mem_map.mp hn' with ⟨m, hm, hEq⟩
            refine ⟨m, hm, ?_⟩
            subst hEq
            split <;> exact ⟨rfl, rfl, rfl, rfl⟩
          · exact ⟨n', hn', rfl, rfl, rfl, rfl⟩
          · exact ⟨n', hn', rfl, rfl, rfl, rfl⟩
        · exact ⟨n', hn', rfl, rfl, rfl, rfl⟩
    · exact ⟨n', hn', rfl, rfl, rfl, rfl⟩
  · unfold deleteNote
    split
    · split
      · exact List.Sublist.refl store
      · split
        · exact List.filter_sublist store
        · exact List.Sublist.refl store
    · exact List.Sublist.refl store
  · intro n' hn'
    unfold postNote at hn'
    split at hn'
    · exact Or.inl hn'
    · split at hn'
      · rcases List.mem_append.mp hn' with h | h
        · exact Or.inl h
        · right
          rw [List.mem_singleton.mp h]
      · exact Or.inl hn'

/-- C7 witness: the theorem applied at a concrete one-note store for each
of the four handlers. -/
theorem creator_set_once_witness :
    (getNote [sampleNote] "u1" "5e4983e0186afc3c3b684bbb").store
      = [sampleNote] ∧
    (∀ n' ∈ (patchNote [sampleNote] "u1" "5e4983e0186afc3c3b684bbb"
        (some (.bool true))).store, ∃ n ∈ [sampleNote],
        n'.id = n.id ∧ n'.text = n.text ∧ n'.creator = n.creator ∧
        n'.createdAt = n.createdAt) ∧
    ((deleteNote [sampleNote] "u1"
        "5e4983e0186afc3c3b684bbb").store).Sublist [sampleNote] := by
  have h := creator_set_once [sampleNote] "u1" "5e4983e0186afc3c3b684bbb"
    "bbbbbbbbbbbbbbbbbbbbbbbb" ⟨some "note1", none, none⟩
    (some (.bool true)) 0 7
  exact ⟨h.1, h.2.1, h.2.2.1⟩

/-- C8: the claim that `createdAt` equals the note's creation time is
violated by `src/models/notes.js`, which declares
`createdAt: \x7b default: Date.now(), ... \x7d` — invoking `Date.now()` once
when the schema module loads — instead of passing the function
`Date.now`.  Every note therefore gets the module-load timestamp.
Concretely: with module-load time 0, a note created at time 7 is stored
with `createdAt = 0`, not 7. -/
theorem createdAt_is_module_load_time :
    (postNote [] "u1" ⟨some "note1", none, none⟩ 0 7
        "bbbbbbbbbbbbbbbbbbbbbbbb").store
      = [⟨"bbbbbbbbbbbbbbbbbbbbbbbb", "note1", false, "u1", 0⟩] ∧
    (0 : Nat) ≠ 7 := by
  exact ⟨rfl, by decide⟩

/-- C9: a PATCH with boolean `completed` on an existing note owned by the
caller returns status 201 (not 200) with the updated note as body, and
the stored note's `completed` equals the supplied value while all other
fields are untouched. -/
theorem patch_bool_completed (store : List Note) (p id : String)
    (n : Note) (b : Bool) (hv : isValidId id = true)
    (hf : findById store id = some n) (ho : n.creator = p) :
    (patchNote store p id (some (.bool b))).status = 201 ∧
    (patchNote store p id (some (.bool b))).body
      = .note { n with completed := b } ∧
    findById (patchNote store p id (some (.bool b))).store id
      = some { n with completed := b } := by
  have hbeq : (n.creator == p) = true := by
    simpa [beq_iff_eq] using ho
  have hpatch : patchNote store p id (some (.bool b))
      = ⟨201, .note { n with completed := b },
          store.map (fun m => if m.id == id then { m with completed := b }
                              else m)⟩ := by
    unfold patchNote
    rw [if_pos hv, hf]
    simp only [hbeq, if_true]
  rw [hpatch]
  exact ⟨rfl, rfl, findById_map_completed store id b n hf⟩

/-- C9 witness: patching the sample note with `completed = true` as its
creator yields 201 and stores the note with `completed = true`. -/
theorem patch_bool_completed_witness :
    (patchNote [sampleNote] "u1" "5e4983e0186afc3c3b684bbb"
        (some (.bool true))).status = 201 ∧
    (patchNote [sampleNote] "u1" "5e4983e0186afc3c3b684bbb"
        (some (.bool true))).body
      = .note { sampleNote with completed := true } ∧
    findById (patchNote [sampleNote] "u1" "5e4983e0186afc3c3b684bbb"
        (some (.bool true))).store "5e4983e0186afc3c3b684bbb"
      = some { sampleNote with completed := true } :=
  patch_bool_completed [sampleNote] "u1" "5e4983e0186afc3c3b684bbb"
    sampleNote true (by decide) (by decide) (by decide)

/-- C10: note text is not unique: two consecutive POSTs with the identical
text "note1" by the same owner both succeed with 201, and afterwards the
store holds two notes, both with that text. -/
theorem duplicate_text_both_stored :
    (postNote [] "u1" ⟨some "note1", none, none⟩ 0 1
        "aaaaaaaaaaaaaaaaaaaaaaa1").status = 201 ∧
    (postNote (postNote [] "u1" ⟨some "note1", none, none⟩ 0 1
          "aaaaaaaaaaaaaaaaaaaaaaa1").store "u1"
        ⟨some "note1", none, none⟩ 0 2
        "aaaaaaaaaaaaaaaaaaaaaaa2").status = 201 ∧
    ((postNote (postNote [] "u1" ⟨some "note1", none, none⟩ 0 1
          "aaaaaaaaaaaaaaaaaaaaaaa1").store "u1"
        ⟨some "note1", none, none⟩ 0 2
        "aaaaaaaaaaaaaaaaaaaaaaa2").store).map Note.text
      = ["note1", "note1"] := by
  refine ⟨rfl, rfl, rfl⟩

end ItemsApi
